import Mathlib

/-!
Verification development for the notion-writing-tracker repository
(src/index.js).  The file gives a shallow embedding of the word-count
synchronization engine: block-text extraction, word counting, the recursive
block-tree walk, the SQLite-backed snapshot and history stores, and the
per-run orchestration `processDatabasePages`, together with theorems about
the engine's behaviour.

Timestamps are modelled as natural numbers: the source compares ISO
timestamp strings via `new Date(a) <= new Date(b)`, which is a chronological
order, and only the order is relevant to the engine.
-/

namespace Notion

/-- Chronological timestamps, abstracted to naturals (only their order is used). -/
abbrev Time := Nat

/-- One span of a rich-text array.  The source (line 97) reads only the
`plain_text` field of each span. -/
structure RichText where
  plain_text : String
deriving Repr, DecidableEq

/-- Embedding of `getPlainTextFromRichText` (src/index.js line 96):
`richText.map(t => t.plain_text).join("")`, i.e. concatenation of the spans'
plain text with no separator. -/
def getPlainTextFromRichText (richText : List RichText) : String :=
  String.join (richText.map (fun t => t.plain_text))

/-- One content block as `getTextFromBlock` (src/index.js lines 100-137) sees
it.  `rich_text` models the optional field access `block[block.type]?.rich_text`
(present for paragraph-like types, absent otherwise); `url`, `title` and
`expression` model the type-specific payload fields `block.bookmark.url` /
`block.link_preview.url`, `block.child_page.title` and
`block.equation.expression`; `type` is the block's type tag and
`has_children` its has-children flag. -/
structure Block where
  id : String
  type : String
  rich_text : Option (List RichText)
  url : String
  title : String
  expression : String
  has_children : Bool
deriving Repr, DecidableEq

/-- Embedding of `getTextFromBlock` (src/index.js lines 100-137): if the
type-specific payload carries a `rich_text` field, concatenate its spans;
otherwise dispatch on the type tag with the fixed fallback marker for
unrecognized types; finally append the fixed suffix when `has_children` is
true. -/
def getTextFromBlock (b : Block) : String :=
  let text :=
    match b.rich_text with
    | some rt => getPlainTextFromRichText rt
    | none =>
      if b.type = "bookmark" then b.url
      else if b.type = "child_page" then "[Sub-page: " ++ b.title ++ "]"
      else if b.type = "embed" || b.type = "video" || b.type = "file" ||
              b.type = "image" || b.type = "pdf" then "[Media Block]"
      else if b.type = "equation" then b.expression
      else if b.type = "link_preview" then b.url
      else "[Unsupported or non-text block]"
  if b.has_children then text ++ " (Has children)" else text

/-- Character class of the word regex in `countWordsInText` (src/index.js
line 158), which matches maximal runs of letters, numerals or
emoji-presentation codepoints.  The embedding uses Lean's decidable
letter/digit classes; it agrees with the source's class on every character
occurring in this development (ASCII letters, digits, punctuation and
whitespace). -/
def isWordChar (c : Char) : Bool :=
  c.isAlpha || c.isDigit

/-- Number of maximal runs of word characters in a character list; `inRun`
records whether the previous character was a word character.  This is the
length of the match list of the global word regex of src/index.js line 158. -/
def countRuns : List Char → Bool → Nat
  | [], _ => 0
  | c :: cs, inRun =>
    if isWordChar c then (if inRun then 0 else 1) + countRuns cs true
    else countRuns cs false

/-- State of the run tracker after consuming a character list: whether the
last character consumed was a word character (the start state if none was). -/
def lastInRun : List Char → Bool → Bool
  | [], b => b
  | c :: cs, _ => lastInRun cs (isWordChar c)

/-- Embedding of `countWordsInText` (src/index.js lines 155-160).  The
argument is an `Option` because the source guards `if (!text) return 0`,
which covers both an absent (null/undefined) argument and the empty string;
otherwise the result is the number of regex matches (0 when there are none,
which `countRuns` already yields). -/
def countWordsInText : Option String → Nat
  | none => 0
  | some s => if s = "" then 0 else countRuns s.data false

/-- Embedding of `countWordsInBlocks` (src/index.js lines 162-171): sum of
the per-block word counts of the extracted text, over the block list in
order. -/
def countWordsInBlocks (blocks : List Block) : Nat :=
  blocks.foldl (fun total b => total + countWordsInText (some (getTextFromBlock b))) 0

/-- Remote block tree of one parent node, as the paginated child-listing API
would serve it to `retrieveBlockChildren` (src/index.js lines 139-153).  A
forest is the (already concatenated) sequence of sibling blocks one
`iteratePaginatedAPI(notion.blocks.children.list, ...)` loop yields, in API
listing order.  `node b cs rest` is a block `b` whose own child listing, if
requested, succeeds and yields the forest `cs`, followed by the remaining
siblings `rest`; `failNode b rest` is a block whose child listing, if
requested, throws (a TraversalError).  Children are fetched only when
`b.has_children` is true, exactly as the source tests `block.has_children`. -/
inductive BForest where
  | nil : BForest
  | node (b : Block) (cs : BForest) (rest : BForest) : BForest
  | failNode (b : Block) (rest : BForest) : BForest
deriving Repr, DecidableEq

/-- Embedding of the recursion of `retrieveBlockChildren` (src/index.js lines
139-153) over a forest: push each listed block, and when its `has_children`
flag is set, recursively fetch and splice in that block's descendants before
moving to the next sibling.  Any listing failure mid-walk propagates as an
error and the partial block array is discarded, exactly as a thrown exception
discards the local `blocks` array in the source. -/
def walkForest : BForest → Except Unit (List Block)
  | .nil => Except.ok []
  | .node b cs rest =>
    if b.has_children then
      match walkForest cs, walkForest rest with
      | Except.ok inner, Except.ok ys => Except.ok (b :: inner ++ ys)
      | Except.error e, _ => Except.error e
      | _, Except.error e => Except.error e
    else
      (walkForest rest).map (fun ys => b :: ys)
  | .failNode b rest =>
    if b.has_children then Except.error ()
    else (walkForest rest).map (fun ys => b :: ys)

/-- Snapshot record of the `pages` table of notion.db (src/index.js lines
22-26): the last edit timestamp current when the word count was last
computed, and that count. -/
structure SnapshotRecord where
  last_edited_time : Time
  word_count : Nat
deriving Repr, DecidableEq

/-- The `pages` table, keyed by page id (`id TEXT PRIMARY KEY`): an
association list with unique keys. -/
abbrev PagesTable := List (String × SnapshotRecord)

/-- Point lookup in the `pages` table (the `SELECT ... WHERE id = ?` of
src/index.js lines 62-64). -/
def lookupRecord : PagesTable → String → Option SnapshotRecord
  | [], _ => none
  | (k, r) :: rest, pid => if k = pid then some r else lookupRecord rest pid

/-- Embedding of `getStoredLastEditedTime` (src/index.js lines 60-74):
the stored record's `last_edited_time`, or none when no row exists. -/
def getStoredLastEditedTime (pages : PagesTable) (pageId : String) : Option Time :=
  (lookupRecord pages pageId).map (fun r => r.last_edited_time)

/-- Embedding of `updateSQLiteDatabase` (src/index.js lines 77-93): the
`INSERT ... ON CONFLICT(id) DO UPDATE` upsert, replacing the existing row's
timestamp and count or appending a new row. -/
def updateSQLiteDatabase (pages : PagesTable) (pageId : String) (t : Time) (wc : Nat) :
    PagesTable :=
  match pages with
  | [] => [(pageId, ⟨t, wc⟩)]
  | (k, r) :: rest =>
    if k = pageId then (pageId, ⟨t, wc⟩) :: rest
    else (k, r) :: updateSQLiteDatabase rest pageId t wc

/-- Embedding of `getTotalWordCount` (src/index.js lines 189-203):
`SELECT SUM(word_count) FROM pages`, with the NULL sum of an empty table
coerced to 0 by `row.total || 0`. -/
def getTotalWordCount (pages : PagesTable) : Nat :=
  (pages.map (fun p => p.2.word_count)).sum

/-- One document as returned by the database listing (src/index.js lines
237-239): its id, its `last_edited_time` at listing time, and its display
url. -/
structure Page where
  id : String
  last_edited_time : Time
  url : String
deriving Repr, DecidableEq

/-- Remote behaviour relevant to one listed document during one run:
`tree` is what the block listing of the page root serves (`none` means the
root-level children listing throws, i.e. a TraversalError at the first
call); `updateOk` is whether `notion.pages.update` succeeds (its failure is
caught and logged inside `updatePageWordCount`, so it influences nothing
downstream — a fact several theorems below are about); `reread` is the
`last_edited_time` the post-write `notion.pages.retrieve` returns, or `none`
when that call throws. -/
structure DocRemote where
  page : Page
  tree : Option BForest
  updateOk : Bool
  reread : Option Time
deriving Repr, DecidableEq

/-- The full block fetch for one document: the root-level listing of
`retrieveBlockChildren(pageId)` and all its recursive expansions. -/
def retrieveBlockChildren (d : DocRemote) : Except Unit (List Block) :=
  match d.tree with
  | none => Except.error ()
  | some f => walkForest f

/-- The skip test of src/index.js line 245:
`storedLastEditedTime && new Date(lastEditedTime) <= new Date(storedLastEditedTime)`.
A stored timestamp string is truthy exactly when a row exists. -/
def skipCheck : Option Time → Time → Bool
  | none, _ => false
  | some s, cur => decide (cur ≤ s)

/-- Observable remote calls and store writes made while processing one
document (the skip branch of line 247 makes none of them: it "skips API
interaction"). -/
inductive Eff where
  | fetchBlocks (id : String)
  | updateWordCount (id : String) (wc : Nat)
  | retrievePage (id : String)
  | upsertRecord (id : String) (t : Time) (wc : Nat)
deriving Repr, DecidableEq

/-- Errors that can escape to the run-level catch of src/index.js line 272.
There is no try/catch inside the per-document loop, so traversal and re-read
errors land here too. -/
inductive RunError where
  | listing
  | traversal
  | reread
  | aggregate
  | append
deriving Repr, DecidableEq

/-- Embedding of the body of the per-document loop (src/index.js lines
237-266) for one listed document: the skip test, then block fetch, word
count, the write-back attempt (whose own failure is swallowed inside
`updatePageWordCount`, lines 173-186), the post-write re-read, and the
snapshot upsert.  Returns the new table, the effect trace, and the error (if
any) that escapes to the run-level catch. -/
def processDoc (pages : PagesTable) (d : DocRemote) :
    PagesTable × List Eff × Option RunError :=
  let stored := getStoredLastEditedTime pages d.page.id
  if skipCheck stored d.page.last_edited_time then
    (pages, [], none)
  else
    match retrieveBlockChildren d with
    | Except.error _ => (pages, [Eff.fetchBlocks d.page.id], some RunError.traversal)
    | Except.ok blocks =>
      let wc := countWordsInBlocks blocks
      match d.reread with
      | none =>
        (pages,
         [Eff.fetchBlocks d.page.id, Eff.updateWordCount d.page.id wc,
          Eff.retrievePage d.page.id],
         some RunError.reread)
      | some t =>
        (updateSQLiteDatabase pages d.page.id t wc,
         [Eff.fetchBlocks d.page.id, Eff.updateWordCount d.page.id wc,
          Eff.retrievePage d.page.id, Eff.upsertRecord d.page.id t wc],
         none)

/-- The per-document loop over one listing batch (the `for` of src/index.js
line 237).  An error thrown while processing a document aborts the loop at
that document: no surrounding try/catch exists inside the loop. -/
def processDocs (pages : PagesTable) : List DocRemote → PagesTable × List Eff × Option RunError
  | [] => (pages, [], none)
  | d :: rest =>
    match processDoc pages d with
    | (p, effs, some e) => (p, effs, some e)
    | (p, effs, none) =>
      match processDocs p rest with
      | (q, effs2, e) => (q, effs ++ effs2, e)

/-- The pagination loop over listing batches (the `while (hasMore)` of
src/index.js lines 227-267), given the successive successful query
responses. -/
def processBatches (pages : PagesTable) :
    List (List DocRemote) → PagesTable × List Eff × Option RunError
  | [] => (pages, [], none)
  | batch :: rest =>
    match processDocs pages batch with
    | (p, effs, some e) => (p, effs, some e)
    | (p, effs, none) =>
      match processBatches p rest with
      | (q, effs2, e) => (q, effs ++ effs2, e)

/-- Remote and store behaviour for one whole run.  `batches` are the
successive successful responses of `notion.databases.query`; `tailFails`
means the query after the last batch throws (a pagination failure mid-run is
the same environment with fewer batches); `aggregateOk` is whether
`getTotalWordCount`'s SELECT resolves, `appendOk` whether
`storeTotalWordCount`'s INSERT resolves. -/
structure Env where
  batches : List (List DocRemote)
  tailFails : Bool
  aggregateOk : Bool
  appendOk : Bool

/-- Local persistent state: the notion.db `pages` table and the wordcount.db
`word_count_history` totals, in insertion order. -/
structure St where
  pages : PagesTable
  history : List Nat
deriving Repr, DecidableEq

/-- The try-block of `processDatabasePages` (src/index.js lines 223-271):
the pagination loop, then `getTotalWordCount` and `storeTotalWordCount`.
Returns the state reached, the effect trace, and the error (if any) that
reaches the catch at line 272. -/
def processBodyRun (env : Env) (st : St) : St × List Eff × Option RunError :=
  match processBatches st.pages env.batches with
  | (p, effs, some e) => (⟨p, st.history⟩, effs, some e)
  | (p, effs, none) =>
    if env.tailFails then (⟨p, st.history⟩, effs, some RunError.listing)
    else if !env.aggregateOk then (⟨p, st.history⟩, effs, some RunError.aggregate)
    else if !env.appendOk then (⟨p, st.history⟩, effs, some RunError.append)
    else (⟨p, st.history ++ [getTotalWordCount p]⟩, effs, none)

/-- Embedding of `processDatabasePages` (src/index.js lines 222-275).  The
catch at line 272 logs the error and does not rethrow, so the returned
promise always resolves: the error component of the result is always `none`,
whatever reached the catch. -/
def processDatabasePages (env : Env) (st : St) : St × List Eff × Option RunError :=
  match processBodyRun env st with
  | (st2, effs, _) => (st2, effs, none)

/-- The `/update_word_count` route handler (src/index.js lines 278-285):
HTTP 500 exactly when `processDatabasePages` rejects, HTTP 200 otherwise. -/
def updateWordCountStatus (env : Env) (st : St) : Nat :=
  match (processDatabasePages env st).2.2 with
  | some _ => 500
  | none => 200

/-- Concrete paragraph block with one rich-text span "alpha" and children. -/
def blockA : Block := ⟨"A", "paragraph", some [⟨"alpha"⟩], "", "", "", true⟩

/-- Concrete childless paragraph block with one rich-text span "beta". -/
def blockB : Block := ⟨"B", "paragraph", some [⟨"beta"⟩], "", "", "", false⟩

/-- Concrete childless paragraph block with one rich-text span "gamma". -/
def blockC : Block := ⟨"C", "paragraph", some [⟨"gamma"⟩], "", "", "", false⟩

/-- Concrete document whose root-level block listing throws. -/
def docTravFail : DocRemote := ⟨⟨"p1", 5, "u1"⟩, none, true, some 6⟩

/-- Concrete document that processes fully and successfully (empty body,
post-write timestamp 7). -/
def docFresh : DocRemote := ⟨⟨"p2", 5, "u2"⟩, some BForest.nil, true, some 7⟩

/-- Concrete document whose remote word-count write-back fails but whose
re-read succeeds with timestamp 9. -/
def docWriteFail : DocRemote := ⟨⟨"p1", 5, "u1"⟩, some BForest.nil, false, some 9⟩

/-- Concrete document listed with timestamp 5, body the single block
`blockB`, successful write-back, post-write timestamp 9. -/
def docReread : DocRemote :=
  ⟨⟨"p3", 5, "u3"⟩, some (BForest.node blockB BForest.nil BForest.nil), true, some 9⟩

/-! ## Helper lemmas -/

theorem countRuns_append (xs ys : List Char) (b : Bool) :
    countRuns (xs ++ ys) b = countRuns xs b + countRuns ys (lastInRun xs b) := by
  induction xs generalizing b with
  | nil => simp [countRuns, lastInRun]
  | cons c cs ih =>
    cases h : isWordChar c <;> cases b <;>
      simp [countRuns, lastInRun, h, ih, Nat.add_assoc]

theorem countRuns_eq_zero (ys : List Char) (hy : ∀ c ∈ ys, isWordChar c = false)
    (b : Bool) : countRuns ys b = 0 := by
  induction ys generalizing b with
  | nil => rfl
  | cons c cs ih =>
    have hc : isWordChar c = false := hy c (by simp)
    simpa [countRuns, hc] using ih (fun d hd => hy d (by simp [hd])) false

theorem isWordChar_eq_false_of_isWhitespace (c : Char) (h : c.isWhitespace = true) :
    isWordChar c = false := by
  simp [Char.isWhitespace] at h
  rcases h with ((h | h) | h) | h <;> subst h <;> rfl

theorem countWordsInText_some (s : String) :
    countWordsInText (some s) = countRuns s.data false := by
  by_cases h : s = ""
  · subst h; rfl
  · simp [countWordsInText, h]

theorem countWordsInText_append_nonword (s ws : String)
    (hw : ∀ c ∈ ws.data, isWordChar c = false) :
    countWordsInText (some (s ++ ws)) = countWordsInText (some s) := by
  rw [countWordsInText_some, countWordsInText_some, String.data_append,
    countRuns_append, countRuns_eq_zero ws.data hw]
  exact Nat.add_zero _

theorem getTextFromBlock_split (b : Block) (h : b.has_children = true) :
    getTextFromBlock b =
      getTextFromBlock { b with has_children := false } ++ " (Has children)" := by
  obtain ⟨i, ty, rt, u, ti, ex, hc⟩ := b
  have h2 : hc = true := h
  subst h2
  rfl

theorem countRuns_hasChildren_suffix (b : Bool) :
    countRuns " (Has children)".data b = 2 := by
  cases b <;> rfl

theorem countWordsInText_append_suffix (t : String) :
    countWordsInText (some (t ++ " (Has children)")) = countWordsInText (some t) + 2 := by
  rw [countWordsInText_some, countWordsInText_some, String.data_append,
    countRuns_append, countRuns_hasChildren_suffix]

theorem skipCheck_eq_true_iff (o : Option Time) (cur : Time) :
    skipCheck o cur = true ↔ ∃ s, o = some s ∧ cur ≤ s := by
  cases o <;> simp [skipCheck]

theorem lookupRecord_updateSQLiteDatabase_self (pages : PagesTable) (pid : String)
    (t : Time) (wc : Nat) :
    lookupRecord (updateSQLiteDatabase pages pid t wc) pid = some ⟨t, wc⟩ := by
  induction pages with
  | nil => simp [updateSQLiteDatabase, lookupRecord]
  | cons p rest ih =>
    obtain ⟨k, r⟩ := p
    by_cases hk : k = pid <;> simp [updateSQLiteDatabase, lookupRecord, hk, ih]

/-! ## Claim theorems -/

/-- C1: a listed document is skipped — the per-document step leaves the
snapshot table unchanged, makes no remote call and no store write (empty
effect trace) and raises no error — if and only if a prior snapshot record
exists for its id and that record's stored `lastEditedTime` is chronologically
greater than or equal to the document's current remote `lastEditedTime`.
Exactly equal timestamps therefore cause a skip (see the witness). -/
theorem C1_skip_iff (pages : PagesTable) (d : DocRemote) :
    processDoc pages d = (pages, [], none) ↔
      ∃ s, getStoredLastEditedTime pages d.page.id = some s ∧
        d.page.last_edited_time ≤ s := by
  rw [← skipCheck_eq_true_iff (getStoredLastEditedTime pages d.page.id)
    d.page.last_edited_time]
  unfold processDoc
  cases hs : skipCheck (getStoredLastEditedTime pages d.page.id) d.page.last_edited_time with
  | true => simp [hs]
  | false =>
    simp only [hs, Bool.false_eq_true, if_false, iff_false]
    cases hrb : retrieveBlockChildren d with
    | error e => simp [hrb]
    | ok blocks => cases hr : d.reread <;> simp [hrb, hr]

/-- Witness for C1: a record whose stored timestamp exactly equals the
document's current remote timestamp (both 5) is skipped. -/
theorem C1_skip_iff_witness :
    processDoc [("p1", ⟨5, 4⟩)] ⟨⟨"p1", 5, "u1"⟩, some BForest.nil, true, some 9⟩ =
      ([("p1", ⟨5, 4⟩)], [], none) :=
  (C1_skip_iff [("p1", ⟨5, 4⟩)] ⟨⟨"p1", 5, "u1"⟩, some BForest.nil, true, some 9⟩).mpr
    ⟨5, rfl, Nat.le_refl 5⟩

/-- C7: the block-tree walk is depth-first pre-order: a block with children
is yielded first, then its fully-walked descendants, then its next siblings'
walk.  The witness instantiates the document [A(children: [B]), C] and
obtains the order A, B, C. -/
theorem C7_preorder (b : Block) (cs rest : BForest) (ws1 ws2 : List Block)
    (hb : b.has_children = true)
    (h1 : walkForest cs = Except.ok ws1) (h2 : walkForest rest = Except.ok ws2) :
    walkForest (BForest.node b cs rest) = Except.ok (b :: ws1 ++ ws2) := by
  simp [walkForest, hb, h1, h2]

/-- Witness for C7: for top-level blocks [A(children: [B]), C] the walk
yields A, B, C. -/
theorem C7_preorder_witness :
    walkForest (BForest.node blockA
        (BForest.node blockB BForest.nil BForest.nil)
        (BForest.node blockC BForest.nil BForest.nil)) =
      Except.ok [blockA, blockB, blockC] :=
  C7_preorder blockA (BForest.node blockB BForest.nil BForest.nil)
    (BForest.node blockC BForest.nil BForest.nil) [blockB] [blockC] rfl rfl rfl

/-- C8: `countWordsInText` returns 0 on absent (null/undefined) text and on
the empty string, is invariant under appending trailing whitespace to any
string, and returns 3 on "Hello, world! 123". -/
theorem C8_countWords :
    countWordsInText none = 0 ∧
    countWordsInText (some "") = 0 ∧
    (∀ s ws : String, (∀ c ∈ ws.data, c.isWhitespace = true) →
      countWordsInText (some (s ++ ws)) = countWordsInText (some s)) ∧
    countWordsInText (some "Hello, world! 123") = 3 := by
  refine ⟨rfl, rfl, ?_, rfl⟩
  intro s ws hw
  exact countWordsInText_append_nonword s ws
    (fun c hc => isWordChar_eq_false_of_isWhitespace c (hw c hc))

/-- Witness for C8: appending two trailing spaces to "Hello, world! 123"
does not change its word count. -/
theorem C8_countWords_witness :
    countWordsInText (some ("Hello, world! 123" ++ "  ")) =
      countWordsInText (some "Hello, world! 123") :=
  C8_countWords.2.2.1 "Hello, world! 123" "  " (by decide)

/-- C9: on a block whose type tag is unrecognized and whose payload carries
no rich-text field, `getTextFromBlock` yields exactly the fixed
unsupported-block marker, with the fixed " (Has children)" suffix appended
if and only if the block's has-children flag is true. -/
theorem C9_unsupported_marker (b : Block) (h1 : b.rich_text = none)
    (h2 : b.type ∉ (["bookmark", "child_page", "embed", "video", "file",
        "image", "pdf", "equation", "link_preview"] : List String)) :
    getTextFromBlock b =
      (if b.has_children then "[Unsupported or non-text block] (Has children)"
       else "[Unsupported or non-text block]") := by
  simp only [List.mem_cons, List.not_mem_nil, or_false, not_or] at h2
  obtain ⟨n1, n2, n3, n4, n5, n6, n7, n8, n9⟩ := h2
  cases hc : b.has_children <;>
    simp [getTextFromBlock, h1, n1, n2, n3, n4, n5, n6, n7, n8, n9, hc]

/-- Witness for C9: a divider block (unrecognized type, no rich text) with
children yields the marker followed by the has-children suffix. -/
theorem C9_unsupported_marker_witness :
    getTextFromBlock ⟨"d1", "divider", none, "", "", "", true⟩ =
      (if (⟨"d1", "divider", none, "", "", "", true⟩ : Block).has_children then
        "[Unsupported or non-text block] (Has children)"
       else "[Unsupported or non-text block]") :=
  C9_unsupported_marker ⟨"d1", "divider", none, "", "", "", true⟩ rfl (by decide)

/-- C10: for every block whose has-children flag is true, the appended
" (Has children)" annotation contributes exactly 2 extra words to that
block's word count, beyond the count of the same block without the flag. -/
theorem C10_suffix_two_words (b : Block) (h : b.has_children = true) :
    countWordsInText (some (getTextFromBlock b)) =
      countWordsInText (some (getTextFromBlock { b with has_children := false })) + 2 := by
  rw [getTextFromBlock_split b h, countWordsInText_append_suffix]

/-- Witness for C10: the child-bearing paragraph block A counts 2 more words
than the same block without children. -/
theorem C10_suffix_two_words_witness :
    countWordsInText (some (getTextFromBlock blockA)) =
      countWordsInText (some (getTextFromBlock { blockA with has_children := false })) + 2 :=
  C10_suffix_two_words blockA rfl

/-- C2 counterexample: with two listed documents, the first of which has a
failing block-tree traversal and the second of which would process fully
(third conjunct), the run ends at the first document with a traversal error:
the second document is never processed (its snapshot record stays absent)
and no history entry is appended.  This refutes the claim that the error is
caught at the per-document boundary and subsequent documents are still
processed. -/
theorem C2_counterexample :
    processBodyRun ⟨[[docTravFail, docFresh]], false, true, true⟩ ⟨[], []⟩ =
      (⟨[], []⟩, [Eff.fetchBlocks "p1"], some RunError.traversal) ∧
    lookupRecord
      (processBodyRun ⟨[[docTravFail, docFresh]], false, true, true⟩ ⟨[], []⟩).1.pages
      "p2" = none ∧
    lookupRecord (processDoc [] docFresh).1 "p2" = some ⟨7, 0⟩ :=
  ⟨rfl, rfl, rfl⟩

/-- C2 (amended): a failing block-tree traversal of one document leaves the
whole snapshot table unchanged (in particular that document's record), but
the error is not caught at the per-document boundary: it aborts the
per-document loop, so the remaining documents of the run are not processed
and the traversal error escapes towards the run-level catch. -/
theorem C2_traversal_aborts_loop (pages : PagesTable) (d : DocRemote)
    (rest : List DocRemote)
    (ht : retrieveBlockChildren d = Except.error ())
    (hs : skipCheck (getStoredLastEditedTime pages d.page.id)
      d.page.last_edited_time = false) :
    processDocs pages (d :: rest) =
      (pages, [Eff.fetchBlocks d.page.id], some RunError.traversal) := by
  have hd : processDoc pages d =
      (pages, [Eff.fetchBlocks d.page.id], some RunError.traversal) := by
    unfold processDoc
    simp [hs, ht]
  unfold processDocs
  rw [hd]

/-- Witness for the amended C2: the concrete failing document aborts the
loop before the concrete healthy one, leaving the table empty. -/
theorem C2_traversal_aborts_loop_witness :
    processDocs [] [docTravFail, docFresh] =
      ([], [Eff.fetchBlocks "p1"], some RunError.traversal) :=
  C2_traversal_aborts_loop [] docTravFail [docFresh] rfl rfl

/-- C3 counterexample: in a run whose very first document-listing query
throws (a run-scoped listing failure), the error reaches the run-level catch
of `processDatabasePages` — first conjunct — yet the HTTP trigger still
receives status 200, not a failure.  This refutes the claim that run-scoped
errors propagate out of the sync entry point to its caller. -/
theorem C3_counterexample :
    (processBodyRun ⟨[], true, true, true⟩ ⟨[], []⟩).2.2 = some RunError.listing ∧
    updateWordCountStatus ⟨[], true, true, true⟩ ⟨[], []⟩ = 200 :=
  ⟨rfl, rfl⟩

/-- C3 (amended): run-scoped errors (listing pagination, aggregate
computation, history append) are caught by the catch block inside
`processDatabasePages`, logged and swallowed: the promise always resolves
and the external trigger always observes status 200, never a failed run. -/
theorem C3_run_errors_swallowed (env : Env) (st : St) :
    (processDatabasePages env st).2.2 = none ∧ updateWordCountStatus env st = 200 := by
  have h : (processDatabasePages env st).2.2 = none := by
    unfold processDatabasePages
    rcases processBodyRun env st with ⟨st2, effs, e⟩
    rfl
  refine ⟨h, ?_⟩
  unfold updateWordCountStatus
  rw [h]

/-- C4 counterexample: a document whose remote word-count write-back fails
(`updateOk = false`) still has its snapshot record overwritten — here the
prior record (3, 7) becomes (9, 0) — because `updatePageWordCount` catches
and logs its own error and processing continues.  This refutes the claim
that the record is left untouched so that the document is retried next
run. -/
theorem C4_counterexample :
    docWriteFail.updateOk = false ∧
    processDoc [("p1", ⟨3, 7⟩)] docWriteFail =
      ([("p1", ⟨9, 0⟩)],
       [Eff.fetchBlocks "p1", Eff.updateWordCount "p1" 0, Eff.retrievePage "p1",
        Eff.upsertRecord "p1" 9 0], none) :=
  ⟨rfl, rfl⟩

/-- C4 (amended): when a document's remote word-count write-back fails, the
failure is swallowed inside `updatePageWordCount` and processing continues:
the post-write re-read runs and the snapshot record is still upserted with
the re-read timestamp and the computed count, so the document is not marked
for retry on the next run. -/
theorem C4_write_failure_still_upserts (pages : PagesTable) (d : DocRemote)
    (blocks : List Block) (t : Time)
    (_hu : d.updateOk = false)
    (hs : skipCheck (getStoredLastEditedTime pages d.page.id)
      d.page.last_edited_time = false)
    (hb : retrieveBlockChildren d = Except.ok blocks)
    (hr : d.reread = some t) :
    processDoc pages d =
      (updateSQLiteDatabase pages d.page.id t (countWordsInBlocks blocks),
       [Eff.fetchBlocks d.page.id,
        Eff.updateWordCount d.page.id (countWordsInBlocks blocks),
        Eff.retrievePage d.page.id,
        Eff.upsertRecord d.page.id t (countWordsInBlocks blocks)],
       none) := by
  unfold processDoc
  simp [hs, hb, hr]

/-- Witness for the amended C4: the concrete write-failing document gets its
record replaced by (9, 0) despite the failed write-back. -/
theorem C4_write_failure_still_upserts_witness :
    processDoc [("p1", ⟨3, 7⟩)] docWriteFail =
      (updateSQLiteDatabase [("p1", ⟨3, 7⟩)] "p1" 9 (countWordsInBlocks []),
       [Eff.fetchBlocks "p1", Eff.updateWordCount "p1" (countWordsInBlocks []),
        Eff.retrievePage "p1", Eff.upsertRecord "p1" 9 (countWordsInBlocks [])],
       none) :=
  C4_write_failure_still_upserts [("p1", ⟨3, 7⟩)] docWriteFail [] 9 rfl rfl rfl rfl

/-- C5: a reprocessed document that fully succeeds ends with a snapshot
record holding the timestamp obtained from the post-write re-read
(`d.reread`), not the timestamp read from the listing, together with the
computed word count; the step raises no error. -/
theorem C5_post_write_timestamp (pages : PagesTable) (d : DocRemote)
    (blocks : List Block) (t : Time)
    (hs : skipCheck (getStoredLastEditedTime pages d.page.id)
      d.page.last_edited_time = false)
    (hb : retrieveBlockChildren d = Except.ok blocks)
    (hr : d.reread = some t) :
    (processDoc pages d).2.2 = none ∧
    lookupRecord (processDoc pages d).1 d.page.id =
      some ⟨t, countWordsInBlocks blocks⟩ := by
  have hd : processDoc pages d =
      (updateSQLiteDatabase pages d.page.id t (countWordsInBlocks blocks),
       [Eff.fetchBlocks d.page.id,
        Eff.updateWordCount d.page.id (countWordsInBlocks blocks),
        Eff.retrievePage d.page.id,
        Eff.upsertRecord d.page.id t (countWordsInBlocks blocks)],
       none) := by
    unfold processDoc
    simp [hs, hb, hr]
  rw [hd]
  exact ⟨rfl, lookupRecord_updateSQLiteDatabase_self pages d.page.id t
    (countWordsInBlocks blocks)⟩

/-- Witness for C5: the concrete document listed with timestamp 5 and
re-read with timestamp 9 ends with a record holding 9 (the post-write
value, different from the listing value) and the computed count 1. -/
theorem C5_post_write_timestamp_witness :
    (processDoc [] docReread).2.2 = none ∧
    lookupRecord (processDoc [] docReread).1 "p3" =
      some ⟨9, countWordsInBlocks [blockB]⟩ :=
  C5_post_write_timestamp [] docReread [blockB] 9 rfl rfl rfl

/-- C6 counterexample: a run whose per-document loop completes without error
(first conjunct: zero documents, loop result error-free) but whose aggregate
SELECT then fails appends no history entry at all — the history stays empty
and the run ends in an aggregate error.  This refutes the claim that every
run completing its per-document loop appends exactly one entry. -/
theorem C6_counterexample :
    processBatches ([] : PagesTable) ([] : List (List DocRemote)) = ([], [], none) ∧
    processBodyRun ⟨[], false, false, true⟩ ⟨[], []⟩ =
      (⟨[], []⟩, [], some RunError.aggregate) :=
  ⟨rfl, rfl⟩

/-- C6 (amended): in every run whose per-document loop completes without
error and whose aggregate read and history append both succeed, exactly one
history entry is appended, and it equals the sum of `word_count` over all
snapshot records present at that moment (all documents ever processed, not
only those touched this run); the sum over an empty table is 0. -/
theorem C6_aggregate_appended (env : Env) (st : St) (p : PagesTable) (effs : List Eff)
    (hloop : processBatches st.pages env.batches = (p, effs, none))
    (htail : env.tailFails = false)
    (hagg : env.aggregateOk = true)
    (happ : env.appendOk = true) :
    processBodyRun env st = (⟨p, st.history ++ [getTotalWordCount p]⟩, effs, none) ∧
    getTotalWordCount ([] : PagesTable) = 0 := by
  refine ⟨?_, rfl⟩
  unfold processBodyRun
  rw [hloop]
  simp [htail, hagg, happ]

/-- Witness for the amended C6: a run over one fresh document, starting with
a pre-existing untouched record of count 10, appends exactly one history
entry equal to 10 + 0 — the sum over all records, not only those touched
this run. -/
theorem C6_aggregate_appended_witness :
    processBodyRun ⟨[[docFresh]], false, true, true⟩ ⟨[("q", ⟨1, 10⟩)], []⟩ =
      (⟨[("q", ⟨1, 10⟩), ("p2", ⟨7, 0⟩)],
        [] ++ [getTotalWordCount [("q", ⟨1, 10⟩), ("p2", ⟨7, 0⟩)]]⟩,
       [Eff.fetchBlocks "p2", Eff.updateWordCount "p2" 0, Eff.retrievePage "p2",
        Eff.upsertRecord "p2" 7 0], none) :=
  (C6_aggregate_appended ⟨[[docFresh]], false, true, true⟩ ⟨[("q", ⟨1, 10⟩)], []⟩
    [("q", ⟨1, 10⟩), ("p2", ⟨7, 0⟩)]
    [Eff.fetchBlocks "p2", Eff.updateWordCount "p2" 0, Eff.retrievePage "p2",
     Eff.upsertRecord "p2" 7 0] rfl rfl rfl rfl).1

end Notion
